import Mathlib

/-!
Verification of the Hotkey Capture & Cross-Surface Settings Synchronization
subsystem of the DogeDictate desktop application.

The hotkey dialog script (`hotkeys.js`) is embedded as pure functions over an
explicit `DialogState`; the main settings surface script (`renderer.js`) is
embedded for its `saveSettings` function; the preload bridge (`preload.js`)
is embedded as the list of method names it exposes on `window.api`; the main
process (`main.js`) is embedded for its `get-settings` / `save-settings` IPC
handlers backed by the electron-store instance.
-/

namespace DogeDictate

/-- The six hotkey Action Identifiers, i.e. the element ids of the six
`.hotkey-input` fields of the hotkey dialog, in document order. -/
inductive ActionId where
  | pushToTalk
  | toggleHandsFree
  | toggleBar
  | switchEn
  | switchPt
  | switchEs
deriving DecidableEq, Repr, Fintype

/-- The DOM id string of each hotkey input field. -/
def ActionId.id : ActionId → String
  | .pushToTalk => "push-to-talk"
  | .toggleHandsFree => "toggle-hands-free"
  | .toggleBar => "toggle-bar"
  | .switchEn => "switch-en"
  | .switchPt => "switch-pt"
  | .switchEs => "switch-es"

/-- `hotkeyInputs = document.querySelectorAll('.hotkey-input')`: the six
fields in document order (per the dialog markup). -/
def hotkeyInputs : List ActionId :=
  [.pushToTalk, .toggleHandsFree, .toggleBar, .switchEn, .switchPt, .switchEs]

/-- The `defaultHotkeys` constant table of `hotkeys.js`. -/
def defaultHotkeys : ActionId → String
  | .pushToTalk => "Alt+Space"
  | .toggleHandsFree => "Alt+H"
  | .toggleBar => "Alt+B"
  | .switchEn => "Alt+1"
  | .switchPt => "Alt+2"
  | .switchEs => "Alt+3"

/-- `Object.entries(defaultHotkeys)`: the default table as a key/value list
in insertion order. -/
def defaultEntries : List (String × String) :=
  hotkeyInputs.map fun a => (a.id, defaultHotkeys a)

/-- State of the hotkey dialog surface: the `value` property of each of the
six inputs, whether each input's classList contains `recording`, and the
two module-level mutable variables `isRecording` and `currentInput`. -/
structure DialogState where
  values : ActionId → String
  recordingClass : ActionId → Bool
  isRecording : Bool
  currentInput : Option ActionId

/-- Initial dialog state: the markup gives the six inputs no `value`
attribute (only a placeholder), no `recording` class, and the script
initializes `isRecording = false`, `currentInput = null`. -/
def initState : DialogState :=
  { values := fun _ => ""
    recordingClass := fun _ => false
    isRecording := false
    currentInput := none }

/-- `stopRecording()` of `hotkeys.js`: if there is a current input and its
value is still the placeholder, restore its default; remove its `recording`
class; clear `isRecording` and `currentInput`. -/
def stopRecording (s : DialogState) : DialogState :=
  match s.currentInput with
  | some f =>
      { values := fun a =>
          if a = f then
            (if s.values f = "Recording..." then defaultHotkeys f else s.values f)
          else s.values a
        recordingClass := fun a => if a = f then false else s.recordingClass a
        isRecording := false
        currentInput := none }
  | none => { s with isRecording := false, currentInput := none }

/-- `startRecording(input)` of `hotkeys.js`: if a recording is in progress,
stop it first; then mark the new input as recording, set its value to the
placeholder and add its `recording` class. -/
def startRecording (s : DialogState) (input : ActionId) : DialogState :=
  let s1 := if s.isRecording then stopRecording s else s
  { values := fun a => if a = input then "Recording..." else s1.values a
    recordingClass := fun a => if a = input then true else s1.recordingClass a
    isRecording := true
    currentInput := some input }

/-- `resetHotkeys()` of `hotkeys.js`: set every field's value to its
default (nothing else changes). -/
def resetHotkeys (s : DialogState) : DialogState :=
  { s with values := fun a => defaultHotkeys a }

/-- A raw DOM key-down event, restricted to the fields the handler reads. -/
structure KeyEvent where
  ctrlKey : Bool
  altKey : Bool
  shiftKey : Bool
  key : String
deriving DecidableEq, Repr

/-- The three modifier key identifiers excluded as primary keys:
`['Control', 'Alt', 'Shift']` in the handler. -/
def modifierNames : List String := ["Control", "Alt", "Shift"]

/-- JS `toUpperCase()`: upper-case the string character by character
(a structurally recursive counterpart of `String.toUpper`). -/
def toUpperCase (s : String) : String := ⟨s.data.map Char.toUpper⟩

/-- The `keys` array built by the keydown handler: `Ctrl`, `Alt`, `Shift`
pushed in that fixed order for each set flag, then the main key unless the
key identifier is itself a modifier name; a single-character key is
upper-cased, any other key identifier is used unchanged. -/
def buildKeys (e : KeyEvent) : List String :=
  ((if e.ctrlKey then ["Ctrl"] else []) ++
    (if e.altKey then ["Alt"] else []) ++
    (if e.shiftKey then ["Shift"] else [])) ++
  (if e.key ∈ modifierNames then []
   else [if e.key.length = 1 then toUpperCase e.key else e.key])

/-- The document-level keydown handler of `hotkeys.js`: a no-op unless
`isRecording`; otherwise build the `keys` array and, when it is non-empty,
write `keys.join('+')` into the current input and stop recording.
(When `isRecording` holds, `currentInput` is always set — see the session
invariant — so the `none` branch below is unreachable; the script would
throw there on the `currentInput.value` access.) -/
def keydownHandler (s : DialogState) (e : KeyEvent) : DialogState :=
  if s.isRecording = false then s
  else
    let keys := buildKeys e
    if 0 < keys.length then
      match s.currentInput with
      | some f =>
          stopRecording
            { s with values := fun a =>
                if a = f then String.intercalate "+" keys else s.values a }
      | none => s
    else s

/-- The user-interaction events wired to the dialog: clicking a hotkey
field, a field losing focus, and a document-level key press. -/
inductive Ev where
  | click (a : ActionId)
  | blur
  | keydown (e : KeyEvent)

/-- One step of the dialog surface: each event dispatches to its handler. -/
def step (s : DialogState) : Ev → DialogState
  | .click a => startRecording s a
  | .blur => stopRecording s
  | .keydown e => keydownHandler s e

/-- The Persisted Settings Blob: a JS object whose properties may each be
absent. The `hotkeys` section is itself an object, kept here as a key/value
list in property order (string keys: persisted sections may hold keys
outside the known Action Identifier set). -/
structure SettingsBlob where
  hotkeys : Option (List (String × String)) := none
  interactionSounds : Option Bool := none
  muteAudio : Option Bool := none
  autoLearn : Option Bool := none
  outputLanguage : Option String := none
  recognitionService : Option String := none
  whisperKey : Option String := none
  azureKey : Option String := none
  azureRegion : Option String := none
  googleCredentials : Option String := none
deriving DecidableEq, Repr

/-- The blob `{}` built by `saveHotkeys` when `getSettings()` returns a
falsy value: every property absent. -/
def emptyBlob : SettingsBlob := {}

/-- The `ipcMain.handle('save-settings', ...)` handler of `main.js`:
`store.set('settings', settings)` replaces the whole value stored under the
`settings` key of the electron-store with the blob it was passed — no
merging with what was stored before. The persisted store is therefore an
`Option SettingsBlob`: the value under the `settings` key, absent before
any write. -/
def gatewayWrite (_store : Option SettingsBlob) (blob : SettingsBlob) :
    Option SettingsBlob :=
  some blob

/-- The `ipcMain.handle('get-settings', ...)` handler of `main.js`:
`store.get('settings')` returns the last value written under the
`settings` key, or `undefined` (absent) if none was ever written — absence
is not an error. -/
def gatewayRead (store : Option SettingsBlob) : Option SettingsBlob := store

/-- `Object.entries(hotkeys).forEach(([id, value]) => ...)` in
`loadHotkeys`: apply the entries in order; an entry whose key is the id of
one of the six fields overwrites that field's value, any other key finds no
hotkey field and is ignored. -/
def applyEntries : (ActionId → String) → List (String × String) →
    ActionId → String
  | values, [], a => values a
  | values, (id, v) :: rest, a =>
      applyEntries (fun b => if ActionId.id b = id then v else values b) rest a

/-- `loadHotkeys()` of `hotkeys.js` run against a store: read the settings,
take `settings?.hotkeys || defaultHotkeys` (the whole section when the blob
and the section are present, the default table otherwise), and write each
entry into the field of the same id. -/
def loadHotkeys (store : Option SettingsBlob) (s : DialogState) :
    DialogState :=
  let hotkeys :=
    match gatewayRead store with
    | some settings =>
        match settings.hotkeys with
        | some h => h
        | none => defaultEntries
    | none => defaultEntries
  { s with values := applyEntries s.values hotkeys }

/-- The dialog states reachable from the initial state through any sequence
of wired user-interaction events, plus the load-on-init (`loadHotkeys`,
against an arbitrary store) and confirmed-reset (`resetHotkeys`) actions. -/
inductive Reachable : DialogState → Prop where
  | init : Reachable initState
  | step {s : DialogState} (e : Ev) : Reachable s → Reachable (step s e)
  | load {s : DialogState} (store : Option SettingsBlob) :
      Reachable s → Reachable (loadHotkeys store s)
  | reset {s : DialogState} : Reachable s → Reachable (resetHotkeys s)

/-- The method names the preload script exposes on `window.api` through
`contextBridge.exposeInMainWorld`. -/
def preloadApi : List String :=
  ["getSettings", "saveSettings", "getMicrophones", "testMicrophone",
   "testService", "startDictation", "stopDictation", "minimizeWindow",
   "maximizeWindow", "closeWindow", "on", "off"]

/-- The `hotkeys` object built by `saveHotkeys`:
`hotkeys[input.id] = input.value || defaultHotkeys[input.id]` over the six
fields in document order (the only falsy string is the empty string). -/
def savedEntries (s : DialogState) : List (String × String) :=
  hotkeyInputs.map fun a =>
    (a.id, if s.values a = "" then defaultHotkeys a else s.values a)

/-- Outcome of a dialog save: the store after the write, whether the
hosting window was closed, and whether the catch block logged an error. -/
structure SaveOutcome where
  store : Option SettingsBlob
  windowClosed : Bool
  errorLogged : Bool
deriving DecidableEq, Repr

/-- `saveHotkeys()` of `hotkeys.js`: build the `hotkeys` object from the
six fields (empty values replaced by defaults), read the latest blob
(`await window.api.getSettings() || {}`), set its `hotkeys` section, write
it back, then call `window.api.closeHotkeyDialog()`. The write has already
succeeded at that point; if the preload api does not expose
`closeHotkeyDialog`, that call throws a TypeError which the surrounding
catch block logs, and the window is not closed. -/
def saveHotkeys (s : DialogState) (store : Option SettingsBlob) :
    SaveOutcome :=
  let hotkeys := savedEntries s
  let settings := (gatewayRead store).getD emptyBlob
  let settings := { settings with hotkeys := some hotkeys }
  let store1 := gatewayWrite store settings
  if "closeHotkeyDialog" ∈ preloadApi then
    { store := store1, windowClosed := true, errorLogged := false }
  else
    { store := store1, windowClosed := false, errorLogged := true }

/-- The main settings surface's field state read by its `saveSettings`. -/
structure MainState where
  interactionSounds : Bool
  muteAudio : Bool
  autoLearn : Bool
  outputLanguage : String
  recognitionService : String
  whisperKey : String
  azureKey : String
  azureRegion : String
  googleCredentials : String
deriving DecidableEq, Repr

/-- `saveSettings()` of `renderer.js` (main surface): build a fresh
settings object from its own nine fields — without reading the persisted
blob first and without a `hotkeys` property — and write it through the
gateway. -/
def mainSaveSettings (m : MainState) (store : Option SettingsBlob) :
    Option SettingsBlob :=
  gatewayWrite store
    { hotkeys := none
      interactionSounds := some m.interactionSounds
      muteAudio := some m.muteAudio
      autoLearn := some m.autoLearn
      outputLanguage := some m.outputLanguage
      recognitionService := some m.recognitionService
      whisperKey := some m.whisperKey
      azureKey := some m.azureKey
      azureRegion := some m.azureRegion
      googleCredentials := some m.googleCredentials }

/-- The Canonical Hotkey String as the spec words it: the modifiers present
in the event, in the fixed order Ctrl, Alt, Shift, followed by exactly one
primary token — the key upper-cased when a single character, its symbolic
name unchanged otherwise — joined by `+`. Stated from the spec's words for
comparison with `buildKeys`. -/
def specCanonical (ctrl alt shift : Bool) (key : String) : String :=
  String.intercalate "+"
    ((["Ctrl", "Alt", "Shift"].filter fun m =>
        (m = "Ctrl" && ctrl) || (m = "Alt" && alt) || (m = "Shift" && shift)) ++
      [if key.length = 1 then toUpperCase key else key])

/-! ### Helper definitions and lemmas -/

/-- The value the last entry of a JS-object entry list assigns to a key
(later assignments to the same property overwrite earlier ones). -/
def lastValue : List (String × String) → String → Option String
  | [], _ => none
  | (id, v) :: rest, key =>
      match lastValue rest key with
      | some w => some w
      | none => if id = key then some v else none

theorem applyEntries_eq (h : List (String × String))
    (values : ActionId → String) (a : ActionId) :
    applyEntries values h a = (lastValue h (ActionId.id a)).getD (values a) := by
  induction h generalizing values with
  | nil => rfl
  | cons p rest ih =>
      obtain ⟨id, v⟩ := p
      rw [applyEntries, ih, lastValue]
      cases hl : lastValue rest (ActionId.id a) with
      | some w => simp
      | none =>
          by_cases hid : ActionId.id a = id
          · simp [hid]
          · have hne : ¬(id = ActionId.id a) := fun hh => hid hh.symm
            simp [hid, hne]

theorem lastValue_defaultEntries (a : ActionId) :
    lastValue defaultEntries (ActionId.id a) = some (defaultHotkeys a) := by
  cases a <;> rfl

/-- The Recording Session invariant: `isRecording` tracks whether a field
is held in `currentInput`, and a field carries the `recording` class
exactly when it is the current input. -/
def Inv (s : DialogState) : Prop :=
  s.isRecording = s.currentInput.isSome ∧
  ∀ a, s.recordingClass a = true ↔ s.currentInput = some a

theorem inv_initState : Inv initState := by
  constructor
  · rfl
  · intro a
    simp [initState]

theorem inv_stopRecording {s : DialogState} (h : Inv s) :
    Inv (stopRecording s) := by
  obtain ⟨h1, h2⟩ := h
  cases hc : s.currentInput with
  | none =>
      constructor
      · simp [stopRecording, hc]
      · intro a
        simp only [stopRecording, hc]
        have h3 := h2 a
        rw [hc] at h3
        simpa using h3
  | some f =>
      constructor
      · simp [stopRecording, hc]
      · intro a
        simp only [stopRecording, hc]
        by_cases haf : a = f
        · simp [haf]
        · rw [if_neg haf]
          constructor
          · intro hb
            have h4 := (h2 a).mp hb
            rw [hc] at h4
            exact absurd (Option.some.inj h4).symm haf
          · intro hco
            exact absurd hco (by simp)

theorem stopRecording_currentInput (s : DialogState) :
    (stopRecording s).currentInput = none := by
  cases hc : s.currentInput <;> simp [stopRecording, hc]

theorem inv_startRecording {s : DialogState} (h : Inv s) (input : ActionId) :
    Inv (startRecording s input) := by
  have hclass : ∀ a,
      ((if s.isRecording then stopRecording s else s).recordingClass a
        = false) := by
    intro a
    by_cases hr : s.isRecording
    · have h2 := (inv_stopRecording h).2 a
      rw [stopRecording_currentInput] at h2
      simp only [hr, if_true]
      cases hb : (stopRecording s).recordingClass a
      · rfl
      · rw [hb] at h2
        exact absurd (h2.mp rfl) (by simp)
    · rw [Bool.not_eq_true] at hr
      have h1 := h.1
      rw [hr] at h1
      cases hc : s.currentInput with
      | none =>
          have h2 := h.2 a
          rw [hc] at h2
          simp only [hr, Bool.false_eq_true, if_false]
          cases hb : s.recordingClass a
          · rfl
          · rw [hb] at h2
            exact absurd (h2.mp rfl) (by simp)
      | some f =>
          rw [hc] at h1
          simp at h1
  constructor
  · simp [startRecording]
  · intro a
    by_cases ha : a = input
    · simp [startRecording, ha]
    · have ha2 : ¬(input = a) := fun hh => ha hh.symm
      have hcl := hclass a
      simp only [startRecording] at *
      simp [ha, ha2, hcl]

theorem inv_keydownHandler {s : DialogState} (h : Inv s) (e : KeyEvent) :
    Inv (keydownHandler s e) := by
  by_cases hr : s.isRecording = false
  · simpa [keydownHandler, hr] using h
  · have h1 := h.1
    have hsome : s.currentInput.isSome := by
      rw [← h1]; exact eq_true_of_ne_false hr
    cases hc : s.currentInput with
    | none => rw [hc] at hsome; simp at hsome
    | some f =>
        by_cases hk : 0 < (buildKeys e).length
        · have : keydownHandler s e = stopRecording
              { s with values := fun a =>
                  if a = f then String.intercalate "+" (buildKeys e)
                  else s.values a } := by
            simp [keydownHandler, hr, hk, hc]
          rw [this]
          exact inv_stopRecording ⟨by simpa using h.1, by simpa using h.2⟩
        · simpa [keydownHandler, hr, hk] using h

theorem inv_loadHotkeys {s : DialogState} (h : Inv s)
    (store : Option SettingsBlob) : Inv (loadHotkeys store s) := by
  exact ⟨h.1, h.2⟩

theorem inv_resetHotkeys {s : DialogState} (h : Inv s) :
    Inv (resetHotkeys s) := by
  exact ⟨h.1, h.2⟩

theorem reachable_inv {s : DialogState} (h : Reachable s) : Inv s := by
  induction h with
  | init => exact inv_initState
  | step e _ ih =>
      cases e with
      | click a => exact inv_startRecording ih a
      | blur => exact inv_stopRecording ih
      | keydown e => exact inv_keydownHandler ih e
  | load store _ ih => exact inv_loadHotkeys ih store
  | reset _ ih => exact inv_resetHotkeys ih

/-- What `loadHotkeys` leaves in each field: the default when the blob or
its `hotkeys` section is absent; otherwise the section's (last) entry for
the field's id when present, the field's prior value when not. -/
theorem loadHotkeys_values (store : Option SettingsBlob) (s : DialogState)
    (a : ActionId) :
    (loadHotkeys store s).values a =
      match store with
      | none => defaultHotkeys a
      | some blob =>
          match blob.hotkeys with
          | none => defaultHotkeys a
          | some h => (lastValue h (ActionId.id a)).getD (s.values a) := by
  cases store with
  | none =>
      simp [loadHotkeys, gatewayRead, applyEntries_eq, lastValue_defaultEntries]
  | some blob =>
      cases hb : blob.hotkeys with
      | none =>
          simp [loadHotkeys, gatewayRead, hb, applyEntries_eq,
            lastValue_defaultEntries]
      | some hlist =>
          simp [loadHotkeys, gatewayRead, hb, applyEntries_eq]

/-- The value the dialog's save writes for each field id. -/
theorem lastValue_savedEntries (s : DialogState) (a : ActionId) :
    lastValue (savedEntries s) (ActionId.id a)
      = some (if s.values a = "" then defaultHotkeys a else s.values a) := by
  cases a <;> simp [savedEntries, hotkeyInputs, lastValue, ActionId.id]

/-- The preload bridge exposes no `closeHotkeyDialog` method. -/
theorem closeHotkeyDialog_not_exposed :
    ¬("closeHotkeyDialog" ∈ preloadApi) := by decide

/-! ### Claims -/

/-- A state with the `toggle-bar` field capturing, reached by clicking it
in the initial dialog. -/
def capturingToggleBar : DialogState :=
  step initState (Ev.click ActionId.toggleBar)

/-- C1 counterexample: with the `toggle-bar` field Capturing, a key-down
whose key identifier is `Control` and whose `ctrlKey` flag is set (as it is
on a real Control key-down) builds the non-empty chord `Ctrl`, commits it
to the field and ends the session — the claim asserts the value is not
committed and the session stays Capturing even with modifier flags set. -/
theorem modifier_keydown_commits_counterexample :
    capturingToggleBar.isRecording = true
    ∧ capturingToggleBar.values ActionId.toggleBar = "Recording..."
    ∧ ("Control" ∈ modifierNames)
    ∧ (step capturingToggleBar
        (Ev.keydown ⟨true, false, false, "Control"⟩)).isRecording = false
    ∧ (step capturingToggleBar
        (Ev.keydown ⟨true, false, false, "Control"⟩)).currentInput = none
    ∧ (step capturingToggleBar
        (Ev.keydown ⟨true, false, false, "Control"⟩)).values
          ActionId.toggleBar = "Ctrl" := by decide

/-- C1 (amended): a key-down whose key identifier is one of the three
modifier names on which no modifier flag is set yields no tokens at all,
commits nothing, and leaves the session (and the whole dialog state)
unchanged — so it remains Capturing. (When any of `ctrlKey`, `altKey`,
`shiftKey` is set on such an event, the handler instead commits the
modifier-only chord and ends the session, as the counterexample shows.) -/
theorem modifier_keydown_no_flags_discarded (s : DialogState) (e : KeyEvent)
    (hrec : s.isRecording = true) (hk : e.key ∈ modifierNames)
    (hc : e.ctrlKey = false) (ha : e.altKey = false)
    (hs : e.shiftKey = false) :
    buildKeys e = [] ∧ step s (Ev.keydown e) = s := by
  have hb : buildKeys e = [] := by
    simp [buildKeys, hk, hc, ha, hs]
  refine ⟨hb, ?_⟩
  simp [step, keydownHandler, hrec, hb]

theorem modifier_keydown_no_flags_discarded_witness :
    capturingToggleBar.isRecording = true
    ∧ ("Shift" ∈ modifierNames)
    ∧ (buildKeys ⟨false, false, false, "Shift"⟩ = []
      ∧ step capturingToggleBar
          (Ev.keydown ⟨false, false, false, "Shift"⟩) = capturingToggleBar) :=
  ⟨by decide, by decide,
    modifier_keydown_no_flags_discarded capturingToggleBar
      ⟨false, false, false, "Shift"⟩ (by decide) (by decide) rfl rfl rfl⟩

/-- C2: for any modifier flags and any non-modifier key, the handler's
token list is the present modifiers filtered from the fixed order Ctrl,
Alt, Shift followed by exactly one primary token — the key upper-cased when
a single character, unchanged otherwise — and joining with `+` yields the
spec's canonical form. -/
theorem buildKeys_canonical (ctrl alt shift : Bool) (key : String)
    (hk : key ∉ modifierNames) :
    buildKeys ⟨ctrl, alt, shift, key⟩ =
      (["Ctrl", "Alt", "Shift"].filter fun m =>
        (m = "Ctrl" && ctrl) || (m = "Alt" && alt) || (m = "Shift" && shift))
        ++ [if key.length = 1 then toUpperCase key else key]
    ∧ String.intercalate "+" (buildKeys ⟨ctrl, alt, shift, key⟩)
        = specCanonical ctrl alt shift key := by
  have h1 : buildKeys ⟨ctrl, alt, shift, key⟩ =
      (["Ctrl", "Alt", "Shift"].filter fun m =>
        (m = "Ctrl" && ctrl) || (m = "Alt" && alt) || (m = "Shift" && shift))
        ++ [if key.length = 1 then toUpperCase key else key] := by
    cases ctrl <;> cases alt <;> cases shift <;>
      simp [buildKeys, hk, List.filter]
  exact ⟨h1, by rw [specCanonical, h1]⟩

theorem buildKeys_canonical_witness :
    ("ArrowUp" ∉ modifierNames)
    ∧ (buildKeys ⟨false, true, true, "ArrowUp"⟩ =
        (["Ctrl", "Alt", "Shift"].filter fun m =>
          (m = "Ctrl" && false) || (m = "Alt" && true) || (m = "Shift" && true))
          ++ [if ("ArrowUp" : String).length = 1 then toUpperCase "ArrowUp"
              else "ArrowUp"]
      ∧ String.intercalate "+" (buildKeys ⟨false, true, true, "ArrowUp"⟩)
          = specCanonical false true true "ArrowUp") :=
  ⟨by decide, buildKeys_canonical false true true "ArrowUp" (by decide)⟩

/-- C4: blurring a Capturing field ends the session, restores the field's
default if its value is still the placeholder, and otherwise leaves every
field's value unchanged. -/
theorem abandoned_field_exit_rule (s : DialogState) (f : ActionId)
    (hc : s.currentInput = some f) :
    (step s Ev.blur).isRecording = false
    ∧ (step s Ev.blur).currentInput = none
    ∧ (s.values f = "Recording..." →
        (step s Ev.blur).values f = defaultHotkeys f)
    ∧ (s.values f ≠ "Recording..." →
        ∀ a, (step s Ev.blur).values a = s.values a) := by
  refine ⟨by simp [step, stopRecording, hc], by simp [step, stopRecording, hc],
    ?_, ?_⟩
  · intro hv
    simp [step, stopRecording, hc, hv]
  · intro hv a
    by_cases haf : a = f
    · subst haf
      simp [step, stopRecording, hc, hv]
    · simp [step, stopRecording, hc, haf]

theorem abandoned_field_exit_rule_witness :
    capturingToggleBar.currentInput = some ActionId.toggleBar
    ∧ capturingToggleBar.values ActionId.toggleBar = "Recording..."
    ∧ (step capturingToggleBar Ev.blur).values ActionId.toggleBar = "Alt+B"
    ∧ (step capturingToggleBar Ev.blur).isRecording = false :=
  ⟨by decide, by decide,
    by
      have h := abandoned_field_exit_rule capturingToggleBar
        ActionId.toggleBar (by decide)
      rw [h.2.2.1 (by decide)]
      decide,
    (abandoned_field_exit_rule capturingToggleBar ActionId.toggleBar
      (by decide)).1⟩

/-- C5: resetting sets all six fields to the default table — push-to-talk
`Alt+Space`, toggle-hands-free `Alt+H`, toggle-bar `Alt+B`, switch-en
`Alt+1`, switch-pt `Alt+2`, switch-es `Alt+3` — regardless of prior
values, and doing it twice equals doing it once. -/
theorem resetHotkeys_defaults_idempotent (s : DialogState) :
    (∀ a, (resetHotkeys s).values a = defaultHotkeys a)
    ∧ ((resetHotkeys s).values ActionId.pushToTalk = "Alt+Space"
      ∧ (resetHotkeys s).values ActionId.toggleHandsFree = "Alt+H"
      ∧ (resetHotkeys s).values ActionId.toggleBar = "Alt+B"
      ∧ (resetHotkeys s).values ActionId.switchEn = "Alt+1"
      ∧ (resetHotkeys s).values ActionId.switchPt = "Alt+2"
      ∧ (resetHotkeys s).values ActionId.switchEs = "Alt+3")
    ∧ resetHotkeys (resetHotkeys s) = resetHotkeys s :=
  ⟨fun _ => rfl, ⟨rfl, rfl, rfl, rfl, rfl, rfl⟩, rfl⟩

/-- C3: in every reachable dialog state at most one field carries the
`recording` marking; the keydown listener is a no-op whenever the session
is Idle; and clicking field `b` while field `a` is Capturing finalizes `a`
under the stopRecording exit rule (placeholder restored to `a`'s default,
`recording` marking removed) before `b` enters Capturing. -/
theorem recordingSession_invariants (s : DialogState) (h : Reachable s) :
    (∀ a b, s.recordingClass a = true → s.recordingClass b = true → a = b)
    ∧ (s.isRecording = false → ∀ e, step s (Ev.keydown e) = s)
    ∧ (∀ a b, s.currentInput = some a → b ≠ a →
        (step s (Ev.click b)).currentInput = some b
        ∧ (step s (Ev.click b)).isRecording = true
        ∧ (step s (Ev.click b)).values b = "Recording..."
        ∧ (step s (Ev.click b)).recordingClass a = false
        ∧ (step s (Ev.click b)).values a =
            (if s.values a = "Recording..." then defaultHotkeys a
             else s.values a)) := by
  have hinv := reachable_inv h
  refine ⟨?_, ?_, ?_⟩
  · intro a b hca hcb
    have h2a := (hinv.2 a).mp hca
    have h2b := (hinv.2 b).mp hcb
    rw [h2a] at h2b
    exact Option.some.inj h2b
  · intro hf e
    simp [step, keydownHandler, hf]
  · intro a b hc hba
    have hr : s.isRecording = true := by rw [hinv.1, hc]; rfl
    have hab : ¬(a = b) := fun hh => hba hh.symm
    refine ⟨rfl, rfl, ?_, ?_, ?_⟩
    · simp [step, startRecording]
    · simp [step, startRecording, hr, stopRecording, hc, hab]
    · simp [step, startRecording, hr, stopRecording, hc, hab]

theorem recordingSession_invariants_witness :
    (∀ a b, capturingToggleBar.recordingClass a = true →
      capturingToggleBar.recordingClass b = true → a = b)
    ∧ (capturingToggleBar.isRecording = false →
        ∀ e, step capturingToggleBar (Ev.keydown e) = capturingToggleBar)
    ∧ (∀ a b, capturingToggleBar.currentInput = some a → b ≠ a →
        (step capturingToggleBar (Ev.click b)).currentInput = some b
        ∧ (step capturingToggleBar (Ev.click b)).isRecording = true
        ∧ (step capturingToggleBar (Ev.click b)).values b = "Recording..."
        ∧ (step capturingToggleBar (Ev.click b)).recordingClass a = false
        ∧ (step capturingToggleBar (Ev.click b)).values a =
            (if capturingToggleBar.values a = "Recording..."
             then defaultHotkeys a else capturingToggleBar.values a)) :=
  recordingSession_invariants capturingToggleBar
    (Reachable.step (Ev.click ActionId.toggleBar) Reachable.init)

/-- A persisted blob whose hotkeys section holds only one of the six known
identifiers. -/
def partialStore : Option SettingsBlob :=
  some { emptyBlob with hotkeys := some [("push-to-talk", "Ctrl+P")] }

/-- C6 counterexample: loading a blob whose hotkeys section is present but
lacks `toggle-bar` leaves the `toggle-bar` field at its prior value (here
the empty initial value), not at its default `Alt+B` — the fallback is per
whole section, not per identifier. -/
theorem load_partial_section_counterexample :
    lastValue [("push-to-talk", "Ctrl+P")]
      (ActionId.id ActionId.toggleBar) = none
    ∧ (loadHotkeys partialStore initState).values ActionId.pushToTalk
        = "Ctrl+P"
    ∧ (loadHotkeys partialStore initState).values ActionId.toggleBar = ""
    ∧ defaultHotkeys ActionId.toggleBar = "Alt+B"
    ∧ ("" : String) ≠ "Alt+B" := by decide

/-- C6 (amended): load falls back to the defaults only for a wholly absent
blob or a wholly absent hotkeys section; when the section is present, each
field takes the section's (last) entry for its id when one exists and
keeps its prior value otherwise; entries whose keys are outside the six
known ids touch no field; an absent blob is not an error — every field
gets its default. -/
theorem loadHotkeys_section_fallback (store : Option SettingsBlob)
    (s : DialogState) (a : ActionId) :
    (loadHotkeys store s).values a =
      match store with
      | none => defaultHotkeys a
      | some blob =>
          match blob.hotkeys with
          | none => defaultHotkeys a
          | some h => (lastValue h (ActionId.id a)).getD (s.values a) :=
  loadHotkeys_values store s a

/-- C7: saving a dialog whose six fields all hold non-empty strings and
then loading from the resulting store reproduces exactly the saved values,
for any prior store and into any dialog state. -/
theorem save_load_roundtrip (s s2 : DialogState) (store : Option SettingsBlob)
    (hne : ∀ a, s.values a ≠ "") (a : ActionId) :
    (loadHotkeys (saveHotkeys s store).store s2).values a = s.values a := by
  have hmem : ¬("closeHotkeyDialog" ∈ preloadApi) := by decide
  have hsec : (saveHotkeys s store).store
      = some { ((gatewayRead store).getD emptyBlob) with
                hotkeys := some (savedEntries s) } := by
    simp [saveHotkeys, gatewayWrite, hmem]
  rw [hsec, loadHotkeys_values]
  show (lastValue (savedEntries s) (ActionId.id a)).getD (s2.values a)
    = s.values a
  rw [lastValue_savedEntries]
  simp [hne a]

theorem save_load_roundtrip_witness :
    (∀ a, (resetHotkeys initState).values a ≠ "")
    ∧ (loadHotkeys (saveHotkeys (resetHotkeys initState) none).store
        initState).values ActionId.switchEn
      = (resetHotkeys initState).values ActionId.switchEn :=
  ⟨by decide,
    save_load_roundtrip (resetHotkeys initState) initState none (by decide)
      ActionId.switchEn⟩

/-- The dialog state after loading an absent store (all defaults), clicking
the `switch-en` field and pressing Alt+4. -/
def dialogAfterAlt4 : DialogState :=
  step (step (loadHotkeys none initState) (Ev.click ActionId.switchEn))
    (Ev.keydown ⟨false, true, false, "4"⟩)

/-- C8: clicking Save in that dialog does write a blob whose hotkeys
section equals the fields (`switch-en` ↦ `Alt+4`), but the subsequent
`window.api.closeHotkeyDialog()` call names a method the preload bridge
never exposes, so it throws, the catch block logs the error, and the
dialog window is not closed — contradicting the claim's closing part. -/
theorem saveHotkeys_window_not_closed :
    ("closeHotkeyDialog" ∉ preloadApi)
    ∧ dialogAfterAlt4.values ActionId.switchEn = "Alt+4"
    ∧ (saveHotkeys dialogAfterAlt4 none).store
        = some { emptyBlob with hotkeys := some (
            [("push-to-talk", "Alt+Space"), ("toggle-hands-free", "Alt+H"),
             ("toggle-bar", "Alt+B"), ("switch-en", "Alt+4"),
             ("switch-pt", "Alt+2"), ("switch-es", "Alt+3")]) }
    ∧ (saveHotkeys dialogAfterAlt4 none).windowClosed = false
    ∧ (saveHotkeys dialogAfterAlt4 none).errorLogged = true := by decide

/-- A store holding a hotkeys section (as left by a dialog save of the
default table). -/
def storeWithHotkeys : Option SettingsBlob :=
  some { emptyBlob with hotkeys := some defaultEntries }

/-- The main surface's nine fields at their initial on-screen values. -/
def mainFields : MainState :=
  { interactionSounds := false
    muteAudio := false
    autoLearn := true
    outputLanguage := "en-US"
    recognitionService := "whisper"
    whisperKey := ""
    azureKey := ""
    azureRegion := ""
    googleCredentials := "" }

/-- C9: the main surface's save ignores the persisted blob entirely (the
written blob is the same whatever the store held) and the blob it writes
has no hotkeys section, so a main-surface save drops — rather than
preserves — the hotkeys section the store held. -/
theorem mainSave_drops_hotkeys :
    mainSaveSettings mainFields storeWithHotkeys
      = mainSaveSettings mainFields none
    ∧ Option.bind storeWithHotkeys SettingsBlob.hotkeys = some defaultEntries
    ∧ Option.bind (mainSaveSettings mainFields storeWithHotkeys)
        SettingsBlob.hotkeys = none := by decide

/-- C10: the hotkeys section a dialog save writes holds, for every one of
the six Action Identifiers, the field's value when non-empty and the
identifier's default when the field is empty — never the empty string. -/
theorem savedEntries_never_empty (s : DialogState)
    (store : Option SettingsBlob) (a : ActionId) :
    (saveHotkeys s store).store
      = some { ((gatewayRead store).getD emptyBlob) with
                hotkeys := some (savedEntries s) }
    ∧ lastValue (savedEntries s) (ActionId.id a)
        = some (if s.values a = "" then defaultHotkeys a else s.values a)
    ∧ (if s.values a = "" then defaultHotkeys a else s.values a) ≠ ""
    ∧ (s.values a = "" →
        lastValue (savedEntries s) (ActionId.id a)
          = some (defaultHotkeys a)) := by
  have hmem : ¬("closeHotkeyDialog" ∈ preloadApi) := by decide
  refine ⟨by simp [saveHotkeys, gatewayWrite, hmem],
    lastValue_savedEntries s a, ?_, ?_⟩
  · by_cases he : s.values a = ""
    · simp only [if_pos he]
      cases a <;> decide
    · rw [if_neg he]
      exact he
  · intro he
    rw [lastValue_savedEntries, if_pos he]

theorem savedEntries_never_empty_witness :
    (saveHotkeys initState none).store
      = some { ((gatewayRead none).getD emptyBlob) with
                hotkeys := some (savedEntries initState) }
    ∧ lastValue (savedEntries initState) (ActionId.id ActionId.switchPt)
        = some (if initState.values ActionId.switchPt = ""
                then defaultHotkeys ActionId.switchPt
                else initState.values ActionId.switchPt)
    ∧ (if initState.values ActionId.switchPt = ""
        then defaultHotkeys ActionId.switchPt
        else initState.values ActionId.switchPt) ≠ ""
    ∧ (initState.values ActionId.switchPt = "" →
        lastValue (savedEntries initState) (ActionId.id ActionId.switchPt)
          = some (defaultHotkeys ActionId.switchPt)) :=
  savedEntries_never_empty initState none ActionId.switchPt

end DogeDictate
